import Mathlib

/-
Verification of the ServiceAccount reconciliation controller of
provider-confluent against its specification.

The controller source (package serviceaccount: connector.Connect,
external.Observe / Create / Update / Delete, createAndConvertClientFunc)
is embedded as executable Lean functions.  The remote Confluent client,
the Kubernetes client and the credential pipeline are oracles passed in
as parameters; every remote call and every Kubernetes write the
controller performs is recorded in an explicit log, so that theorems can
count calls and inspect persisted state.

Helper functions the controller calls that live outside the embedded
sources (ExternalNameHelper, ObserveCreateResource, ObserveUpdateResource,
CreateResourceIsImport, the concrete client and the generic managed
reconciler loop) are modelled from the specification; each such
definition carries a doc comment starting with "Modelled from the spec:".
-/

namespace Confluent

/-- A remote service-account record as returned by the Confluent client
(remote identifier, name and the mirrored description field).  This is
the RemoteSnapshot of the specification. -/
structure ServiceAccountSnapshot where
  ID : String
  Name : String
  Description : String
deriving DecidableEq, Repr, Inhabited

/-- Failure modes of a remote lookup: the remote object does not exist,
or the read failed for any other reason. -/
inductive LookupFail
| notFound
| other
deriving DecidableEq, Repr

/-- The kind-specific remote client interface (serviceaccount.IClient):
lookup by name, create, update and delete, each of which may fail. -/
structure IClient where
  ServiceAccountByName : String → Except LookupFail ServiceAccountSnapshot
  ServiceAccountCreate : String → String → Except Unit ServiceAccountSnapshot
  ServiceAccountUpdate : String → String → Except Unit Unit
  ServiceAccountDelete : String → Except Unit Unit

/-- A status condition: type, status and reason
(crossplane common conditions). -/
structure Condition where
  ctype : String
  status : Bool
  reason : String
deriving DecidableEq, Repr

/-- The Available condition (xpv1.Available): type Ready, status True. -/
def Available : Condition := ⟨"Ready", true, "Available"⟩

/-- The Creating condition (xpv1.Creating): type Ready, status False. -/
def Creating : Condition := ⟨"Ready", false, "Creating"⟩

/-- The Deleting condition (xpv1.Deleting): type Ready, status False. -/
def Deleting : Condition := ⟨"Ready", false, "Deleting"⟩

/-- SetConditions semantics: latest wins per condition type — an existing
condition of the same type is replaced in place, otherwise the new
condition is appended. -/
def SetConditions (cs : List Condition) (c : Condition) : List Condition :=
  if cs.any (fun d => d.ctype = c.ctype) then
    cs.map (fun d => if d.ctype = c.ctype then c else d)
  else cs ++ [c]

/-- ServiceAccountObservation: the AtProvider snapshot persisted in
status — the remote-assigned identifier ("" when unset). -/
structure ServiceAccountObservation where
  ID : String
deriving DecidableEq, Repr, Inhabited

/-- ServiceAccountParameters: the declared kind-specific spec fields. -/
structure ServiceAccountParameters where
  Description : String
deriving DecidableEq, Repr, Inhabited

/-- ServiceAccountStatus: conditions plus the AtProvider snapshot. -/
structure ServiceAccountStatus where
  conditions : List Condition
  AtProvider : ServiceAccountObservation
deriving DecidableEq, Repr

/-- ServiceAccountSpec: the ForProvider parameters. -/
structure ServiceAccountSpec where
  ForProvider : ServiceAccountParameters
deriving DecidableEq, Repr

/-- The ServiceAccount custom resource: metadata name, the crossplane
external-name annotation ("" when unset), spec and status. -/
structure ServiceAccount where
  name : String
  externalName : String
  Spec : ServiceAccountSpec
  Status : ServiceAccountStatus
deriving DecidableEq, Repr

/-- A managed resource handed to the controller: either a ServiceAccount
custom resource or some other managed kind (the failed type assertion
branch of the source). -/
inductive Managed
| sa (cr : ServiceAccount)
| other
deriving DecidableEq, Repr

/-- Errors the controller surfaces, by provenance. -/
inductive OpError
| notMyType
| remoteObjectMissing
| lookupError
| createError
| updateError
| deleteError
| statusWriteError
| trackPCUsageError
| getPCError
| getCredsError
| invalidCredentialFormat
| authenticationFailed
deriving DecidableEq, Repr

/-- errNotMyType, the literal error string of the source. -/
def errNotMyType : String := "managed resource is not a ServiceAccount custom resource"

/-- errAuthCredentials, the literal error string of the source for
credential bytes that do not parse into an identity/secret pair. -/
def errAuthCredentials : String := "invalid client credentials"

/-- The error string attached to each error, matching the source's
error constants where the source fixes one. -/
def OpError.message : OpError → String
| .notMyType => errNotMyType
| .remoteObjectMissing => "remote object missing"
| .lookupError => "lookup failed"
| .createError => "create failed"
| .updateError => "update failed"
| .deleteError => "delete failed"
| .statusWriteError => "status write failed"
| .trackPCUsageError => "cannot track ProviderConfig usage"
| .getPCError => "cannot get ProviderConfig"
| .getCredsError => "cannot get credentials"
| .invalidCredentialFormat => errAuthCredentials
| .authenticationFailed => "authentication failed"

/-- One remote API call performed by the controller. -/
inductive RemoteCall
| lookup (name : String)
| create (name description : String)
| update (id description : String)
| delete (id : String)
deriving DecidableEq, Repr

/-- One successful Kubernetes write performed by the controller: a
status-subresource update or a main-object update. -/
inductive KubeWrite
| statusUpdate (cr : ServiceAccount)
| update (cr : ServiceAccount)
deriving DecidableEq, Repr

/-- The Kubernetes client oracle: whether a status update or a
main-object update of a given resource state succeeds. -/
structure Kube where
  statusUpdateOk : ServiceAccount → Bool
  updateOk : ServiceAccount → Bool

/-- Result of one controller operation: the returned value or error, the
in-memory managed resource after the operation, the remote calls made
and the Kubernetes writes that succeeded. -/
structure OpResult (α : Type) where
  res : Except OpError α
  mg : Managed
  calls : List RemoteCall
  writes : List KubeWrite
deriving Repr

/-- Decidable equality for results, so that concrete executions can be
checked by evaluation. -/
instance {ε α : Type} [DecidableEq ε] [DecidableEq α] : DecidableEq (Except ε α) :=
  fun x y =>
    match x, y with
    | .ok a, .ok b =>
      if h : a = b then .isTrue (by rw [h]) else .isFalse (fun hc => h (by injection hc))
    | .error a, .error b =>
      if h : a = b then .isTrue (by rw [h]) else .isFalse (fun hc => h (by injection hc))
    | .ok _, .error _ => .isFalse (fun hc => by injection hc)
    | .error _, .ok _ => .isFalse (fun hc => by injection hc)

/-- managed.ExternalObservation: whether the resource exists remotely
and whether it is up to date. -/
structure Observation where
  ResourceExists : Bool
  ResourceUpToDate : Bool
deriving DecidableEq, Repr

/-- Modelled from the spec: ExternalNameHelper resolves the addressing
name (step 2 of the per-tick algorithm) — the external name when the
resource already carries one, otherwise the deterministic candidate
derived from the declared identity (the metadata name); the boolean
reports whether a usable (non-empty) name was resolved. -/
def ExternalNameHelper (cr : ServiceAccount) : String × Bool :=
  let n := if cr.externalName = "" then cr.name else cr.externalName
  (n, n ≠ "")

/-- Modelled from the spec: ObserveCreateResource is the decision table
of step 3 keyed on the lookup result and external-name presence.
NotFound with no external name means first-time creation; NotFound with
an external name is the out-of-band-deletion error RemoteObjectMissing;
any other lookup failure is LookupError; a successful lookup on a
resource with no external name yet routes to the create step, where the
found object is adopted (Import); a successful lookup on a resource
that carries its external name proceeds to the drift check. -/
def ObserveCreateResource (cr : ServiceAccount) (err : Option LookupFail) :
    Except OpError Bool :=
  match err with
  | some .notFound =>
    if cr.externalName = "" then .ok true else .error .remoteObjectMissing
  | some .other => .error .lookupError
  | none => if cr.externalName = "" then .ok true else .ok false

/-- Modelled from the spec: ObserveUpdateResource is the drift
comparison — field-by-field equality between the declared spec and the
snapshot's mirrored fields; for a ServiceAccount the declared field is
the description.  Returns true when an update is required. -/
def ObserveUpdateResource (cr : ServiceAccount) (observe : ServiceAccountSnapshot) :
    Bool :=
  cr.Spec.ForProvider.Description ≠ observe.Description

/-- Modelled from the spec: CreateResourceIsImport decides, inside the
create step, whether the operation is an import — the lookup succeeded,
so the found object's identifier is adopted instead of creating a new
one; NotFound means a genuine first-time creation; any other lookup
failure aborts the tick. -/
def CreateResourceIsImport (err : Option LookupFail) : Except OpError Bool :=
  match err with
  | none => .ok true
  | some .notFound => .ok false
  | some .other => .error .lookupError

/-- external.Observe: type-check the managed resource, resolve the
addressing name, look the remote object up by name, run the creation
decision, then the drift check; when the resource exists and is up to
date, set the Available condition and persist status. -/
def Observe (svc : IClient) (kube : Kube) (mg : Managed) : OpResult Observation :=
  match mg with
  | .other => ⟨.error .notMyType, .other, [], []⟩
  | .sa cr =>
    let name := (ExternalNameHelper cr).1
    let observeRes := svc.ServiceAccountByName name
    let err : Option LookupFail :=
      match observeRes with
      | .ok _ => none
      | .error e => some e
    let observe : ServiceAccountSnapshot :=
      match observeRes with
      | .ok s => s
      | .error _ => default
    match ObserveCreateResource cr err with
    | .error e => ⟨.error e, .sa cr, [.lookup name], []⟩
    | .ok true => ⟨.ok ⟨false, false⟩, .sa cr, [.lookup name], []⟩
    | .ok false =>
      if ObserveUpdateResource cr observe then
        ⟨.ok ⟨true, false⟩, .sa cr, [.lookup name], []⟩
      else
        let cr2 : ServiceAccount :=
          { cr with Status :=
            { cr.Status with conditions := SetConditions cr.Status.conditions Available } }
        if kube.statusUpdateOk cr2 then
          ⟨.ok ⟨true, true⟩, .sa cr2, [.lookup name], [.statusUpdate cr2]⟩
        else
          ⟨.error .statusWriteError, .sa cr2, [.lookup name], []⟩

/-- Tail of external.Create after the remote action: set the external
name on the resource (meta.SetExternalName), persist the object and
then its status; a failing Kubernetes write surfaces the Engine's own
persistence failure. -/
def createFinish (kube : Kube) (cr1 : ServiceAccount) (name : String)
    (crDone : ServiceAccount) (pre : List RemoteCall) : OpResult Unit :=
  let cr4 : ServiceAccount := { crDone with externalName := name }
  if kube.updateOk cr4 then
    if kube.statusUpdateOk cr4 then
      ⟨.ok (), .sa cr4, pre, [.statusUpdate cr1, .update cr4, .statusUpdate cr4]⟩
    else
      ⟨.error .statusWriteError, .sa cr4, pre, [.statusUpdate cr1, .update cr4]⟩
  else
    ⟨.error .statusWriteError, .sa cr4, pre, [.statusUpdate cr1]⟩

/-- Non-import branch of external.Create: issue the remote create,
record the created identifier in AtProvider, then finish. -/
def createDo (svc : IClient) (kube : Kube) (cr1 : ServiceAccount) (name : String)
    (pre : List RemoteCall) : OpResult Unit :=
  match svc.ServiceAccountCreate name cr1.Spec.ForProvider.Description with
  | .error _ =>
    ⟨.error .createError, .sa cr1,
      pre ++ [.create name cr1.Spec.ForProvider.Description], [.statusUpdate cr1]⟩
  | .ok out =>
    createFinish kube cr1 name
      { cr1 with Status := { cr1.Status with AtProvider := ⟨out.ID⟩ } }
      (pre ++ [.create name cr1.Spec.ForProvider.Description])

/-- Body of external.Create once the Creating condition has been added
to the in-memory resource cr1: persist status, resolve the addressing
name, and when a name is available look the remote object up to
decide between adoption and creation; on adoption keep the found
identifier without any remote create, otherwise issue the remote
create. -/
def createMain (svc : IClient) (kube : Kube) (cr1 : ServiceAccount) : OpResult Unit :=
  if kube.statusUpdateOk cr1 then
    let p := ExternalNameHelper cr1
    if p.2 then
      let lookupRes := svc.ServiceAccountByName p.1
      let err : Option LookupFail :=
        match lookupRes with
        | .ok _ => none
        | .error e => some e
      let observe : ServiceAccountSnapshot :=
        match lookupRes with
        | .ok s => s
        | .error _ => default
      match CreateResourceIsImport err with
      | .error e => ⟨.error e, .sa cr1, [.lookup p.1], [.statusUpdate cr1]⟩
      | .ok true =>
        createFinish kube cr1 p.1
          { cr1 with Status := { cr1.Status with AtProvider := ⟨observe.ID⟩ } }
          [.lookup p.1]
      | .ok false => createDo svc kube cr1 p.1 [.lookup p.1]
    else
      createDo svc kube cr1 p.1 []
  else
    ⟨.error .statusWriteError, .sa cr1, [], []⟩

/-- external.Create: type-check, set the Creating condition and run the
create body. -/
def Create (svc : IClient) (kube : Kube) (mg : Managed) : OpResult Unit :=
  match mg with
  | .other => ⟨.error .notMyType, .other, [], []⟩
  | .sa cr =>
    createMain svc kube
      { cr with Status :=
        { cr.Status with conditions := SetConditions cr.Status.conditions Creating } }

/-- external.Update: type-check, then issue the remote update of the
description addressed by the stored AtProvider identifier.  No
condition is touched and no Kubernetes write is performed. -/
def Update (svc : IClient) (_kube : Kube) (mg : Managed) : OpResult Unit :=
  match mg with
  | .other => ⟨.error .notMyType, .other, [], []⟩
  | .sa cr =>
    match svc.ServiceAccountUpdate cr.Status.AtProvider.ID cr.Spec.ForProvider.Description with
    | .error _ =>
      ⟨.error .updateError, .sa cr,
        [.update cr.Status.AtProvider.ID cr.Spec.ForProvider.Description], []⟩
    | .ok _ =>
      ⟨.ok (), .sa cr,
        [.update cr.Status.AtProvider.ID cr.Spec.ForProvider.Description], []⟩

/-- external.Delete: type-check, set the Deleting condition and persist
status, then issue the remote delete addressed by the stored AtProvider
identifier. -/
def Delete (svc : IClient) (kube : Kube) (mg : Managed) : OpResult Unit :=
  match mg with
  | .other => ⟨.error .notMyType, .other, [], []⟩
  | .sa cr =>
    let cr1 : ServiceAccount :=
      { cr with Status :=
        { cr.Status with conditions := SetConditions cr.Status.conditions Deleting } }
    if kube.statusUpdateOk cr1 then
      match svc.ServiceAccountDelete cr1.Status.AtProvider.ID with
      | .error _ =>
        ⟨.error .deleteError, .sa cr1, [.delete cr1.Status.AtProvider.ID], [.statusUpdate cr1]⟩
      | .ok _ =>
        ⟨.ok (), .sa cr1, [.delete cr1.Status.AtProvider.ID], [.statusUpdate cr1]⟩
    else
      ⟨.error .statusWriteError, .sa cr1, [], []⟩

/-- Modelled from the spec: Reconcile is one tick of the per-resource
orchestration run by the generic managed reconciler (a dependency, not
part of the embedded sources): when the resource is marked for deletion
run the delete step; otherwise observe, and per the observation either
create (resource absent — covers both first-time creation and import),
update (present but out of date), or do nothing further (present and up
to date).  Any error aborts the tick and is surfaced unchanged. -/
def Reconcile (svc : IClient) (kube : Kube) (mg : Managed)
    (markedForDeletion : Bool) : OpResult Unit :=
  if markedForDeletion then Delete svc kube mg
  else
    let ob := Observe svc kube mg
    match ob.res with
    | .error e => ⟨.error e, ob.mg, ob.calls, ob.writes⟩
    | .ok o =>
      if o.ResourceExists then
        if o.ResourceUpToDate then
          ⟨.ok (), ob.mg, ob.calls, ob.writes⟩
        else
          let u := Update svc kube ob.mg
          ⟨u.res, u.mg, ob.calls ++ u.calls, ob.writes ++ u.writes⟩
      else
        let c := Create svc kube ob.mg
        ⟨c.res, c.mg, ob.calls ++ c.calls, ob.writes ++ c.writes⟩

/-- Whether a remote call is a create call. -/
def isCreateCall : RemoteCall → Bool
| .create _ _ => true
| _ => false

/-- Whether a remote call is an update call. -/
def isUpdateCall : RemoteCall → Bool
| .update _ _ => true
| _ => false

/-- Whether a remote call is a delete call. -/
def isDeleteCall : RemoteCall → Bool
| .delete _ => true
| _ => false

/-- Number of create calls in a call log. -/
def countCreates (l : List RemoteCall) : Nat := (l.filter isCreateCall).length

/-- Number of create, update and delete calls in a call log. -/
def countMutations (l : List RemoteCall) : Nat :=
  (l.filter (fun c => isCreateCall c || isUpdateCall c || isDeleteCall c)).length

/-- Whether a Kubernetes write is a main-object update. -/
def isMainUpdateWrite : KubeWrite → Bool
| .update _ => true
| _ => false

/-- Conditions of a managed resource (empty for a non-ServiceAccount). -/
def Managed.conds : Managed → List Condition
| .sa cr => cr.Status.conditions
| .other => []

/-- AtProvider identifier of a managed resource. -/
def Managed.atProviderID : Managed → String
| .sa cr => cr.Status.AtProvider.ID
| .other => ""

/-- External name of a managed resource. -/
def Managed.extName : Managed → String
| .sa cr => cr.externalName
| .other => ""

/-- clients.APICredentials: one API-scoped credential entry of the
ProviderConfig, selected by its identifier.  Modelled from the spec:
the concrete clients package is not among the embedded sources; only
the identifier field, the one the connector reads, is modelled. -/
structure APICredentials where
  Identifier : String
deriving DecidableEq, Repr, Inhabited

/-- serviceaccount.Config: the configuration the connector hands to the
kind-specific client — the selected API credentials. -/
structure Config where
  APICredentials : APICredentials
deriving DecidableEq, Repr

/-- v1alpha1.SchemeGroupVersion.Identifier() for the ServiceAccount
kind; the connector selects the API credential entry whose identifier
equals this constant. -/
def schemeGroupVersionIdentifier : String := "serviceaccount.confluent.crossplane.io/v1alpha1"

/-- Split a character list at every occurrence of the separator. -/
def splitChar (c : Char) : List Char → List (List Char)
| [] => [[]]
| x :: xs =>
  let r := splitChar c xs
  if x = c then [] :: r
  else
    match r with
    | [] => [[x]]
    | y :: ys => (x :: y) :: ys

/-- strings.Split for a one-character separator: every occurrence of
the separator starts a new part; an empty input yields one empty
part. -/
def stringsSplit (s : String) (c : Char) : List String :=
  (splitChar c s.data).map (fun l => String.mk l)

/-- createAndConvertClientFunc: split the resolved credential bytes on
":"; exactly two parts are required (otherwise the invalid-credentials
error), the first being the identity and the second the secret handed
to Authenticate; on successful authentication the kind-specific client
is built around the API credentials.  The Authenticate call of the
concrete clients package is an oracle parameter. -/
def createAndConvertClientFunc (auth : String → String → Option Unit)
    (clientCreds : String) (apiCreds : APICredentials) : Except OpError Config :=
  let credParts := stringsSplit clientCreds ':'
  if credParts.length ≠ 2 then .error .invalidCredentialFormat
  else
    match auth (credParts.getD 0 "") (credParts.getD 1 "") with
    | some _ => .error .authenticationFailed
    | none => .ok ⟨apiCreds⟩

/-- apisv1alpha1.ProviderConfig: its list of API-scoped credential
entries (the credential source itself is handled by the extractor
oracle). -/
structure ProviderConfig where
  APICredentials : List APICredentials
deriving DecidableEq, Repr

/-- The connector's collaborators as oracles: usage tracking, fetching
the ProviderConfig, extracting the raw credential bytes, and the
account-level Authenticate call. -/
structure ConnectorDeps where
  trackOk : Bool
  getPC : Except Unit ProviderConfig
  extractCreds : ProviderConfig → Except Unit String
  auth : String → String → Option Unit

/-- One step of the connector pipeline, recorded for effect tracking. -/
inductive ConnectEvent
| track
| getPC
| extractCreds
| newService
deriving DecidableEq, Repr

/-- Result of connector.Connect: the built client configuration or an
error, plus the pipeline steps that were reached. -/
structure ConnectResult where
  res : Except OpError Config
  events : List ConnectEvent
deriving Repr

/-- connector.Connect: type-check the managed resource, track
ProviderConfig usage, fetch the ProviderConfig, extract the credential
bytes, select the API credential entry matching the scheme identifier
(an absent match passes the zero value through), and build the client
via createAndConvertClientFunc. -/
def Connect (deps : ConnectorDeps) (mg : Managed) : ConnectResult :=
  match mg with
  | .other => ⟨.error .notMyType, []⟩
  | .sa _ =>
    if deps.trackOk then
      match deps.getPC with
      | .error _ => ⟨.error .getPCError, [.track, .getPC]⟩
      | .ok pc =>
        match deps.extractCreds pc with
        | .error _ => ⟨.error .getCredsError, [.track, .getPC, .extractCreds]⟩
        | .ok creds =>
          let apiCredentials :=
            (pc.APICredentials.find? (fun v => v.Identifier = schemeGroupVersionIdentifier)).getD default
          match createAndConvertClientFunc deps.auth creds apiCredentials with
          | .error e => ⟨.error e, [.track, .getPC, .extractCreds, .newService]⟩
          | .ok cfg => ⟨.ok cfg, [.track, .getPC, .extractCreds, .newService]⟩
    else
      ⟨.error .trackPCUsageError, [.track]⟩

/-- Modelled from the spec: the remote system's state — the set of
service accounts currently existing remotely. -/
structure RemoteState where
  accounts : List ServiceAccountSnapshot
deriving DecidableEq, Repr

/-- Modelled from the spec: the concrete ServiceAccount client backed
by a remote state.  Lookup finds the account by name or fails with
NotFound; create returns a snapshot with a deterministic fresh
identifier; update and delete succeed — in particular a delete of an
already-absent remote object is success, not an error (idempotent
delete, §4.2/§7). -/
def clientOf (st : RemoteState) : IClient where
  ServiceAccountByName := fun n =>
    match st.accounts.find? (fun a => a.Name = n) with
    | some s => .ok s
    | none => .error .notFound
  ServiceAccountCreate := fun n d => .ok ⟨"id-" ++ n, n, d⟩
  ServiceAccountUpdate := fun _ _ => .ok ()
  ServiceAccountDelete := fun _ => .ok ()

/-- Modelled from the spec: the effect of one remote call on the remote
state — create adds the account, delete removes it, update rewrites the
mirrored field, lookup changes nothing. -/
def applyCall (st : RemoteState) : RemoteCall → RemoteState
| .lookup _ => st
| .create n d => ⟨st.accounts ++ [⟨"id-" ++ n, n, d⟩]⟩
| .update i d =>
  ⟨st.accounts.map (fun a => if a.ID = i then { a with Description := d } else a)⟩
| .delete i => ⟨st.accounts.filter (fun a => a.ID ≠ i)⟩

/-- Effect of a call log on the remote state. -/
def applyCalls (st : RemoteState) (calls : List RemoteCall) : RemoteState :=
  calls.foldl applyCall st

/-- A Kubernetes client on which every write succeeds. -/
def kubeOK : Kube := ⟨fun _ => true, fun _ => true⟩

/-- A declared resource not yet provisioned: no external name, no
AtProvider identifier, no conditions. -/
def crNew : ServiceAccount := ⟨"svc-1", "", ⟨⟨"payments"⟩⟩, ⟨[], ⟨""⟩⟩⟩

/-- A declared resource already under management: external name and
AtProvider identifier set. -/
def crOwned : ServiceAccount := ⟨"svc-1", "svc-1", ⟨⟨"payments"⟩⟩, ⟨[], ⟨"sa-1"⟩⟩⟩

/-- A remote snapshot matching crOwned's declared spec. -/
def snapMatch : ServiceAccountSnapshot := ⟨"sa-1", "svc-1", "payments"⟩

/-- A client on which every lookup reports NotFound. -/
def clientNotFound : IClient :=
  ⟨fun _ => .error .notFound, fun n d => .ok ⟨"id-" ++ n, n, d⟩,
   fun _ _ => .ok (), fun _ => .ok ()⟩

/-- A client on which every lookup returns the given snapshot. -/
def clientFound (s : ServiceAccountSnapshot) : IClient :=
  ⟨fun _ => .ok s, fun n d => .ok ⟨"id-" ++ n, n, d⟩,
   fun _ _ => .ok (), fun _ => .ok ()⟩

/-- C10: on any managed resource that is not a ServiceAccount custom
resource, each of Connect, Observe, Create, Update and Delete returns
the "managed resource is not a ServiceAccount custom resource" error
immediately, with no remote call, no pipeline step and no Kubernetes
write. -/
theorem C10_non_serviceaccount_rejected (deps : ConnectorDeps) (svc : IClient) (kube : Kube) :
    Connect deps Managed.other = ⟨.error .notMyType, []⟩ ∧
    Observe svc kube Managed.other = ⟨.error .notMyType, .other, [], []⟩ ∧
    Create svc kube Managed.other = ⟨.error .notMyType, .other, [], []⟩ ∧
    Update svc kube Managed.other = ⟨.error .notMyType, .other, [], []⟩ ∧
    Delete svc kube Managed.other = ⟨.error .notMyType, .other, [], []⟩ ∧
    OpError.message .notMyType = errNotMyType :=
  ⟨rfl, rfl, rfl, rfl, rfl, rfl⟩

/-- C9: createAndConvertClientFunc fails with the invalid-credentials
error exactly when the resolved credential bytes do not split on ":"
into two parts; when they do, the two parts are handed to Authenticate
as the identity/secret pair and the outcome is decided by that call; at
the Connect level, once tracking, ProviderConfig retrieval and
credential extraction succeed, the invalid-credentials failure is
likewise equivalent to the two-part split failing. -/
theorem C9_credential_split (auth : String → String → Option Unit)
    (clientCreds : String) (apiCreds : APICredentials) :
    ((createAndConvertClientFunc auth clientCreds apiCreds = .error .invalidCredentialFormat) ↔
      (stringsSplit clientCreds ':').length ≠ 2) ∧
    ((stringsSplit clientCreds ':').length = 2 →
      createAndConvertClientFunc auth clientCreds apiCreds =
        (match auth ((stringsSplit clientCreds ':').getD 0 "") ((stringsSplit clientCreds ':').getD 1 "") with
         | some _ => .error .authenticationFailed
         | none => .ok ⟨apiCreds⟩)) ∧
    (∀ (deps : ConnectorDeps) (cr : ServiceAccount) (pc : ProviderConfig) (creds : String),
      deps.trackOk = true → deps.getPC = .ok pc → deps.extractCreds pc = .ok creds →
      ((Connect deps (.sa cr)).res = .error .invalidCredentialFormat ↔
        (stringsSplit creds ':').length ≠ 2)) := by
  have key : ∀ (a : String → String → Option Unit) (s : String) (api : APICredentials),
      createAndConvertClientFunc a s api =
        if (stringsSplit s ':').length ≠ 2 then .error .invalidCredentialFormat
        else
          (match a ((stringsSplit s ':').getD 0 "") ((stringsSplit s ':').getD 1 "") with
           | some _ => .error .authenticationFailed
           | none => .ok ⟨api⟩) := fun _ _ _ => rfl
  refine ⟨?_, ?_, ?_⟩
  · rw [key]
    by_cases h : (stringsSplit clientCreds ':').length = 2
    · rw [if_neg (not_not_intro h)]
      cases auth ((stringsSplit clientCreds ':').getD 0 "") ((stringsSplit clientCreds ':').getD 1 "") <;>
        simp [h]
    · rw [if_pos h]
      simp [h]
  · intro h
    rw [key, if_neg (not_not_intro h)]
  · intro deps cr pc creds htrack hpc hcreds
    have hconn : (Connect deps (.sa cr)).res =
        createAndConvertClientFunc deps.auth creds
          ((pc.APICredentials.find? (fun v => v.Identifier = schemeGroupVersionIdentifier)).getD default) := by
      cases hc : createAndConvertClientFunc deps.auth creds
          ((pc.APICredentials.find? (fun v => v.Identifier = schemeGroupVersionIdentifier)).getD default) <;>
        simp [Connect, htrack, hpc, hcreds, hc]
    rw [hconn, key]
    by_cases h : (stringsSplit creds ':').length = 2
    · rw [if_neg (not_not_intro h)]
      cases deps.auth ((stringsSplit creds ':').getD 0 "") ((stringsSplit creds ':').getD 1 "") <;>
        simp [h]
    · rw [if_pos h]
      simp [h]

/-- C9 witness: on the concrete credential bytes "key:secret" the split
has two parts and the function reaches authentication; on "nosep" it
fails with the invalid-credentials error. -/
theorem C9_credential_split_witness :
    createAndConvertClientFunc (fun _ _ => none) "key:secret" ⟨"api"⟩ = .ok ⟨⟨"api"⟩⟩ ∧
    createAndConvertClientFunc (fun _ _ => none) "nosep" ⟨"api"⟩ = .error .invalidCredentialFormat := by
  constructor
  · have h := (C9_credential_split (fun _ _ => none) "key:secret" ⟨"api"⟩).2.1 (by decide)
    simpa using h
  · have h := (C9_credential_split (fun _ _ => none) "nosep" ⟨"api"⟩).1
    exact h.mpr (by decide)

/-- C1: on a reconciliation tick for a resource that already carries an
external name, a NotFound lookup surfaces the RemoteObjectMissing error
and the tick performs zero create calls — the remote object is not
silently recreated. -/
theorem C1_out_of_band_deletion_surfaced (svc : IClient) (kube : Kube)
    (cr : ServiceAccount)
    (hext : cr.externalName ≠ "")
    (hlook : svc.ServiceAccountByName cr.externalName = .error .notFound) :
    (Reconcile svc kube (.sa cr) false).res = .error .remoteObjectMissing ∧
    countCreates (Reconcile svc kube (.sa cr) false).calls = 0 := by
  constructor <;>
    simp [Reconcile, Observe, ObserveCreateResource, ExternalNameHelper,
      hext, hlook, countCreates, isCreateCall]

/-- C1 witness: the concrete owned resource whose remote object has
vanished. -/
theorem C1_out_of_band_deletion_surfaced_witness :
    (Reconcile clientNotFound kubeOK (.sa crOwned) false).res = .error .remoteObjectMissing ∧
    countCreates (Reconcile clientNotFound kubeOK (.sa crOwned) false).calls = 0 :=
  C1_out_of_band_deletion_surfaced clientNotFound kubeOK crOwned (by decide) rfl

/-- Whether the write log contains a main-object update that persisted
the given external name. -/
def persistedExternalName (ws : List KubeWrite) (n : String) : Bool :=
  ws.any (fun w =>
    match w with
    | .update c2 => c2.externalName = n
    | .statusUpdate _ => false)

/-- C2: on a reconciliation tick for a resource with no external name
yet whose candidate name an existing remote object answers to, the
chosen action is import — the tick succeeds with zero create calls and
the AtProvider identifier adopted from the returned snapshot. -/
theorem C2_import_adoption (svc : IClient) (kube : Kube) (cr : ServiceAccount)
    (snap : ServiceAccountSnapshot)
    (hext : cr.externalName = "")
    (hname : cr.name ≠ "")
    (hlook : svc.ServiceAccountByName cr.name = .ok snap)
    (hsu : ∀ c, kube.statusUpdateOk c = true)
    (hu : ∀ c, kube.updateOk c = true) :
    (Reconcile svc kube (.sa cr) false).res = .ok () ∧
    countCreates (Reconcile svc kube (.sa cr) false).calls = 0 ∧
    (Reconcile svc kube (.sa cr) false).mg.atProviderID = snap.ID := by
  refine ⟨?_, ?_, ?_⟩ <;>
    simp [Reconcile, Observe, Create, createMain, createFinish, ObserveCreateResource,
      CreateResourceIsImport, ExternalNameHelper, hext, hname, hlook, hsu, hu,
      countCreates, isCreateCall, Managed.atProviderID]

/-- C2 witness: the concrete unprovisioned resource adopting the
pre-existing remote object. -/
theorem C2_import_adoption_witness :
    (Reconcile (clientFound snapMatch) kubeOK (.sa crNew) false).res = .ok () ∧
    countCreates (Reconcile (clientFound snapMatch) kubeOK (.sa crNew) false).calls = 0 ∧
    (Reconcile (clientFound snapMatch) kubeOK (.sa crNew) false).mg.atProviderID = snapMatch.ID :=
  C2_import_adoption (clientFound snapMatch) kubeOK crNew snapMatch rfl (by decide)
    rfl (fun _ => rfl) (fun _ => rfl)

/-- C3: on a reconciliation tick for a resource with no external name
whose candidate name is absent remotely, exactly one create call is
issued, the AtProvider identifier is set to the created remote
identifier, and the external name is set on the resource and persisted
through a main-object write. -/
theorem C3_first_time_creation (svc : IClient) (kube : Kube) (cr : ServiceAccount)
    (out : ServiceAccountSnapshot)
    (hext : cr.externalName = "")
    (hlook : svc.ServiceAccountByName cr.name = .error .notFound)
    (hcreate : svc.ServiceAccountCreate cr.name cr.Spec.ForProvider.Description = .ok out)
    (hsu : ∀ c, kube.statusUpdateOk c = true)
    (hu : ∀ c, kube.updateOk c = true) :
    (Reconcile svc kube (.sa cr) false).res = .ok () ∧
    countCreates (Reconcile svc kube (.sa cr) false).calls = 1 ∧
    (Reconcile svc kube (.sa cr) false).mg.atProviderID = out.ID ∧
    (Reconcile svc kube (.sa cr) false).mg.extName = cr.name ∧
    persistedExternalName (Reconcile svc kube (.sa cr) false).writes cr.name = true := by
  by_cases hn : cr.name = ""
  · rw [hn] at hlook hcreate
    refine ⟨?_, ?_, ?_, ?_, ?_⟩ <;>
      simp [Reconcile, Observe, Create, createMain, createDo, createFinish, ObserveCreateResource,
        ExternalNameHelper, persistedExternalName, hext, hn, hlook, hcreate, hsu, hu,
        countCreates, isCreateCall, Managed.atProviderID, Managed.extName]
  · refine ⟨?_, ?_, ?_, ?_, ?_⟩ <;>
      simp [Reconcile, Observe, Create, createMain, createDo, createFinish, ObserveCreateResource,
        CreateResourceIsImport, ExternalNameHelper, persistedExternalName, hext, hn,
        hlook, hcreate, hsu, hu, countCreates, isCreateCall, Managed.atProviderID,
        Managed.extName]

/-- C3 witness: the concrete unprovisioned resource created remotely,
matching the literal scenario of the specification. -/
theorem C3_first_time_creation_witness :
    (Reconcile clientNotFound kubeOK (.sa crNew) false).res = .ok () ∧
    countCreates (Reconcile clientNotFound kubeOK (.sa crNew) false).calls = 1 ∧
    (Reconcile clientNotFound kubeOK (.sa crNew) false).mg.atProviderID =
      (⟨"id-" ++ "svc-1", "svc-1", "payments"⟩ : ServiceAccountSnapshot).ID ∧
    (Reconcile clientNotFound kubeOK (.sa crNew) false).mg.extName = crNew.name ∧
    persistedExternalName (Reconcile clientNotFound kubeOK (.sa crNew) false).writes crNew.name = true :=
  C3_first_time_creation clientNotFound kubeOK crNew ⟨"id-" ++ "svc-1", "svc-1", "payments"⟩
    rfl rfl rfl (fun _ => rfl) (fun _ => rfl)

/-- C7: on a reconciliation tick whose chosen action is Update (the
remote object exists under the external name but its mirrored field
drifted), the update step leaves the resource — its conditions
included — untouched in memory and performs no Kubernetes write,
whether the remote update succeeds or fails; readiness can therefore
only be asserted by a later tick's observation. -/
theorem C7_update_sets_no_conditions (svc : IClient) (kube : Kube)
    (cr : ServiceAccount) (snap : ServiceAccountSnapshot)
    (hext : cr.externalName ≠ "")
    (hlook : svc.ServiceAccountByName cr.externalName = .ok snap)
    (hdrift : cr.Spec.ForProvider.Description ≠ snap.Description) :
    (Reconcile svc kube (.sa cr) false).mg = .sa cr ∧
    (Reconcile svc kube (.sa cr) false).writes = [] ∧
    (Reconcile svc kube (.sa cr) false).mg.conds = cr.Status.conditions := by
  cases hup : svc.ServiceAccountUpdate cr.Status.AtProvider.ID cr.Spec.ForProvider.Description <;>
  · refine ⟨?_, ?_, ?_⟩ <;>
      simp [Reconcile, Observe, Update, ObserveCreateResource, ObserveUpdateResource,
        ExternalNameHelper, Managed.conds, hext, hlook, hdrift, hup]

/-- C7 witness: the concrete owned resource whose remote description
drifted. -/
theorem C7_update_sets_no_conditions_witness :
    (Reconcile (clientFound ⟨"sa-1", "svc-1", "stale"⟩) kubeOK (.sa crOwned) false).mg = .sa crOwned ∧
    (Reconcile (clientFound ⟨"sa-1", "svc-1", "stale"⟩) kubeOK (.sa crOwned) false).writes = [] ∧
    (Reconcile (clientFound ⟨"sa-1", "svc-1", "stale"⟩) kubeOK (.sa crOwned) false).mg.conds =
      crOwned.Status.conditions :=
  C7_update_sets_no_conditions (clientFound ⟨"sa-1", "svc-1", "stale"⟩) kubeOK crOwned
    ⟨"sa-1", "svc-1", "stale"⟩ (by decide) rfl (by decide)

/-- A client whose lookups report NotFound and whose creates are
rejected by the remote system. -/
def clientCreateRejected : IClient :=
  ⟨fun _ => .error .notFound, fun _ _ => .error (),
   fun _ _ => .ok (), fun _ => .ok ()⟩

/-- C5 counterexample: on the concrete unprovisioned resource whose
remote create is rejected, the tick's conditions are NOT unchanged —
the Creating condition was set and persisted before the remote call —
refuting the claim that the observed state (conditions included) is
unchanged from before the tick. -/
theorem C5_counterexample :
    (Reconcile clientCreateRejected kubeOK (.sa crNew) false).res = .error .createError ∧
    (Reconcile clientCreateRejected kubeOK (.sa crNew) false).mg.conds ≠ crNew.Status.conditions ∧
    (Reconcile clientCreateRejected kubeOK (.sa crNew) false).writes ≠ [] := by
  refine ⟨rfl, by decide, by decide⟩

/-- C5 amended: when the remote create call is rejected the tick aborts
with the create error and none of the later steps is applied — the
AtProvider identifier and the external name are unchanged and no
main-object write occurs — but the Creating condition has already been
set (and persisted) before the remote call. -/
theorem C5_create_rejected_aborts (svc : IClient) (kube : Kube) (cr : ServiceAccount)
    (hext : cr.externalName = "")
    (hlook : svc.ServiceAccountByName cr.name = .error .notFound)
    (hcreate : svc.ServiceAccountCreate cr.name cr.Spec.ForProvider.Description = .error ())
    (hsu : ∀ c, kube.statusUpdateOk c = true) :
    (Reconcile svc kube (.sa cr) false).res = .error .createError ∧
    (Reconcile svc kube (.sa cr) false).mg.atProviderID = cr.Status.AtProvider.ID ∧
    (Reconcile svc kube (.sa cr) false).mg.extName = cr.externalName ∧
    (Reconcile svc kube (.sa cr) false).writes.filter isMainUpdateWrite = [] ∧
    (Reconcile svc kube (.sa cr) false).mg.conds = SetConditions cr.Status.conditions Creating := by
  by_cases hn : cr.name = ""
  · rw [hn] at hlook hcreate
    refine ⟨?_, ?_, ?_, ?_, ?_⟩ <;>
      simp [Reconcile, Observe, Create, createMain, createDo, ObserveCreateResource,
        ExternalNameHelper, hext, hn, hlook, hcreate, hsu, isMainUpdateWrite,
        Managed.atProviderID, Managed.extName, Managed.conds]
  · refine ⟨?_, ?_, ?_, ?_, ?_⟩ <;>
      simp [Reconcile, Observe, Create, createMain, createDo, CreateResourceIsImport,
        ObserveCreateResource, ExternalNameHelper, hext, hn, hlook, hcreate, hsu,
        isMainUpdateWrite, Managed.atProviderID, Managed.extName, Managed.conds]

/-- C5 amended witness: the concrete rejected creation. -/
theorem C5_create_rejected_aborts_witness :
    (Reconcile clientCreateRejected kubeOK (.sa crNew) false).res = .error .createError ∧
    (Reconcile clientCreateRejected kubeOK (.sa crNew) false).mg.atProviderID =
      crNew.Status.AtProvider.ID ∧
    (Reconcile clientCreateRejected kubeOK (.sa crNew) false).mg.extName = crNew.externalName ∧
    (Reconcile clientCreateRejected kubeOK (.sa crNew) false).writes.filter isMainUpdateWrite = [] ∧
    (Reconcile clientCreateRejected kubeOK (.sa crNew) false).mg.conds =
      SetConditions crNew.Status.conditions Creating :=
  C5_create_rejected_aborts clientCreateRejected kubeOK crNew rfl rfl rfl (fun _ => rfl)

/-- The create tail returns success or the persistence-failure error,
never a remote-action error. -/
theorem createFinish_res (kube : Kube) (cr1 : ServiceAccount) (name : String)
    (crDone : ServiceAccount) (pre : List RemoteCall) :
    (createFinish kube cr1 name crDone pre).res = .ok () ∨
    (createFinish kube cr1 name crDone pre).res = .error .statusWriteError := by
  cases h1 : kube.updateOk { crDone with externalName := name } <;>
    cases h2 : kube.statusUpdateOk { crDone with externalName := name } <;>
      simp [createFinish, h1, h2]

/-- The create tail performs no further remote call. -/
theorem createFinish_calls (kube : Kube) (cr1 : ServiceAccount) (name : String)
    (crDone : ServiceAccount) (pre : List RemoteCall) :
    (createFinish kube cr1 name crDone pre).calls = pre := by
  cases h1 : kube.updateOk { crDone with externalName := name } <;>
    cases h2 : kube.statusUpdateOk { crDone with externalName := name } <;>
      simp [createFinish, h1, h2]

/-- The non-import create branch performs exactly one remote create
call, after the given prefix. -/
theorem createDo_calls (svc : IClient) (kube : Kube) (cr1 : ServiceAccount)
    (name : String) (pre : List RemoteCall) :
    (createDo svc kube cr1 name pre).calls =
      pre ++ [.create name cr1.Spec.ForProvider.Description] := by
  cases hc : svc.ServiceAccountCreate name cr1.Spec.ForProvider.Description with
  | error u => simp [createDo, hc]
  | ok out =>
    simp only [createDo, hc]
    exact createFinish_calls kube cr1 name _ _

/-- When the remote create succeeded, the only error the create branch
can still surface is the persistence failure. -/
theorem createDo_ok_res (svc : IClient) (kube : Kube) (cr1 : ServiceAccount)
    (name : String) (pre : List RemoteCall) (snap : ServiceAccountSnapshot) (e : OpError)
    (hok : svc.ServiceAccountCreate name cr1.Spec.ForProvider.Description = .ok snap)
    (herr : (createDo svc kube cr1 name pre).res = .error e) :
    e = .statusWriteError := by
  simp only [createDo, hok] at herr
  rcases createFinish_res kube cr1 name
      { cr1 with Status := { cr1.Status with AtProvider := ⟨snap.ID⟩ } }
      (pre ++ [.create name cr1.Spec.ForProvider.Description]) with h | h
  · rw [h] at herr
    exact absurd herr (by simp)
  · rw [h] at herr
    injection herr with h2
    exact h2.symm

/-- When the create body issued a remote create call for some name and
description and that call succeeded, any error it returns is the
persistence failure. -/
theorem createMain_ok_res (svc : IClient) (kube : Kube) (cr1 : ServiceAccount)
    (n d : String) (snap : ServiceAccountSnapshot) (e : OpError)
    (hmem : RemoteCall.create n d ∈ (createMain svc kube cr1).calls)
    (hok : svc.ServiceAccountCreate n d = .ok snap)
    (herr : (createMain svc kube cr1).res = .error e) :
    e = .statusWriteError := by
  cases hs1 : kube.statusUpdateOk cr1 with
  | false => simp [createMain, hs1] at hmem
  | true =>
    cases hp : (ExternalNameHelper cr1).2 with
    | false =>
      simp only [createMain, hs1, hp, if_true, if_false, Bool.false_eq_true] at hmem herr
      rw [createDo_calls] at hmem
      simp only [List.nil_append, List.mem_singleton, RemoteCall.create.injEq] at hmem
      obtain ⟨hn, hd⟩ := hmem
      subst hn
      subst hd
      exact createDo_ok_res svc kube cr1 _ _ snap e hok herr
    | true =>
      cases hL : svc.ServiceAccountByName (ExternalNameHelper cr1).1 with
      | ok s =>
        simp only [createMain, hs1, hp, hL, CreateResourceIsImport, if_true] at hmem
        rw [createFinish_calls] at hmem
        simp at hmem
      | error lf =>
        cases lf with
        | other =>
          simp only [createMain, hs1, hp, hL, CreateResourceIsImport, if_true] at hmem
          simp at hmem
        | notFound =>
          simp only [createMain, hs1, hp, hL, CreateResourceIsImport, if_true] at hmem herr
          rw [createDo_calls] at hmem
          simp at hmem
          obtain ⟨hn, hd⟩ := hmem
          subst hn
          subst hd
          exact createDo_ok_res svc kube cr1 _ _ snap e hok herr

/-- Lifting of createMain_ok_res to external.Create. -/
theorem Create_ok_res (svc : IClient) (kube : Kube) (mg : Managed)
    (n d : String) (snap : ServiceAccountSnapshot) (e : OpError)
    (hmem : RemoteCall.create n d ∈ (Create svc kube mg).calls)
    (hok : svc.ServiceAccountCreate n d = .ok snap)
    (herr : (Create svc kube mg).res = .error e) :
    e = .statusWriteError := by
  cases mg with
  | other => simp [Create] at hmem
  | sa cr =>
    simp only [Create] at hmem herr
    exact createMain_ok_res svc kube _ n d snap e hmem hok herr

/-- external.Observe performs at most one remote call, a lookup. -/
theorem Observe_calls_lookup (svc : IClient) (kube : Kube) (mg : Managed) :
    (Observe svc kube mg).calls = [] ∨
    ∃ nm, (Observe svc kube mg).calls = [RemoteCall.lookup nm] := by
  cases mg with
  | other => exact Or.inl rfl
  | sa cr =>
    refine Or.inr ⟨(ExternalNameHelper cr).1, ?_⟩
    cases hL : svc.ServiceAccountByName (ExternalNameHelper cr).1 with
    | ok s =>
      cases hO : ObserveCreateResource cr none with
      | error e => simp [Observe, hL, hO]
      | ok b =>
        cases b with
        | true => simp [Observe, hL, hO]
        | false =>
          cases hU : ObserveUpdateResource cr s with
          | true => simp [Observe, hL, hO, hU]
          | false =>
            cases hs : kube.statusUpdateOk
                { cr with Status :=
                  { cr.Status with conditions := SetConditions cr.Status.conditions Available } } <;>
              simp [Observe, hL, hO, hU, hs]
    | error lf =>
      cases hO : ObserveCreateResource cr (some lf) with
      | error e => simp [Observe, hL, hO]
      | ok b =>
        cases b with
        | true => simp [Observe, hL, hO]
        | false =>
          cases hU : ObserveUpdateResource cr default with
          | true => simp [Observe, hL, hO, hU]
          | false =>
            cases hs : kube.statusUpdateOk
                { cr with Status :=
                  { cr.Status with conditions := SetConditions cr.Status.conditions Available } } <;>
              simp [Observe, hL, hO, hU, hs]

/-- external.Update performs no remote create call. -/
theorem Update_calls (svc : IClient) (kube : Kube) (mg : Managed) :
    (Update svc kube mg).calls = [] ∨
    ∃ i d, (Update svc kube mg).calls = [RemoteCall.update i d] := by
  cases mg with
  | other => exact Or.inl rfl
  | sa cr =>
    refine Or.inr ⟨cr.Status.AtProvider.ID, cr.Spec.ForProvider.Description, ?_⟩
    cases hu : svc.ServiceAccountUpdate cr.Status.AtProvider.ID cr.Spec.ForProvider.Description <;>
      simp [Update, hu]

/-- C6: whenever a reconciliation tick issued a remote create call that
the remote system accepted and the tick nevertheless returns an error,
that error is the Engine's own status-persistence failure — an error
value distinct from every failed-remote-action error, so a retry can
tell that the create has already been applied remotely. -/
theorem C6_status_write_error_distinguishable (svc : IClient) (kube : Kube)
    (mg : Managed) (n d : String) (snap : ServiceAccountSnapshot) (e : OpError)
    (hmem : RemoteCall.create n d ∈ (Reconcile svc kube mg false).calls)
    (hok : svc.ServiceAccountCreate n d = .ok snap)
    (herr : (Reconcile svc kube mg false).res = .error e) :
    e = .statusWriteError ∧ e ≠ .createError ∧ e ≠ .updateError ∧ e ≠ .deleteError := by
  have hmain : e = OpError.statusWriteError := by
    cases hOres : (Observe svc kube mg).res with
    | error eo =>
      simp only [Reconcile, hOres, Bool.false_eq_true, if_false] at hmem
      rcases Observe_calls_lookup svc kube mg with h | ⟨nm, h⟩ <;> rw [h] at hmem <;> simp at hmem
    | ok o =>
      cases o with
      | mk rex rupd =>
        cases rex with
        | false =>
          simp only [Reconcile, hOres, Bool.false_eq_true, if_false] at hmem herr
          simp only [List.mem_append] at hmem
          rcases hmem with hmem | hmem
          · rcases Observe_calls_lookup svc kube mg with h | ⟨nm, h⟩ <;> rw [h] at hmem <;> simp at hmem
          · exact Create_ok_res svc kube _ n d snap e hmem hok herr
        | true =>
          cases rupd with
          | true =>
            simp [Reconcile, hOres] at herr
          | false =>
            simp [Reconcile, hOres] at hmem
            rcases hmem with hmem | hmem
            · rcases Observe_calls_lookup svc kube mg with h | ⟨nm, h⟩ <;> rw [h] at hmem <;> simp at hmem
            · rcases Update_calls svc kube (Observe svc kube mg).mg with h | ⟨i, d2, h⟩ <;>
                rw [h] at hmem <;> simp at hmem
  subst hmain
  exact ⟨rfl, by decide, by decide, by decide⟩

/-- A Kubernetes client whose main-object updates fail but whose status
updates succeed. -/
def kubeMainFails : Kube := ⟨fun _ => true, fun _ => false⟩

/-- C6 witness: the concrete creation whose remote call succeeds and
whose subsequent persistence fails. -/
theorem C6_status_write_error_distinguishable_witness :
    OpError.statusWriteError = OpError.statusWriteError ∧
    OpError.statusWriteError ≠ OpError.createError ∧
    OpError.statusWriteError ≠ OpError.updateError ∧
    OpError.statusWriteError ≠ OpError.deleteError :=
  C6_status_write_error_distinguishable clientNotFound kubeMainFails (.sa crNew)
    "svc-1" "payments" ⟨"id-" ++ "svc-1", "svc-1", "payments"⟩ OpError.statusWriteError
    (by decide) rfl (by decide)

/-- Setting a condition leaves it present in the condition list. -/
theorem SetConditions_mem (L : List Condition) (c : Condition) :
    c ∈ SetConditions L c := by
  unfold SetConditions
  by_cases h : L.any (fun d => d.ctype = c.ctype) = true
  · rw [if_pos h]
    rcases List.any_eq_true.mp h with ⟨d, hd, hdc⟩
    refine List.mem_map.mpr ⟨d, hd, ?_⟩
    simp [of_decide_eq_true hdc]
  · rw [if_neg h]
    simp

/-- Replacing a condition that carries no matching type leaves the list
unchanged under the replacement map. -/
theorem map_if_no_match (L : List Condition) (c : Condition)
    (h : ∀ d ∈ L, d.ctype ≠ c.ctype) :
    L.map (fun d => if d.ctype = c.ctype then c else d) = L := by
  induction L with
  | nil => rfl
  | cons x xs ih =>
    simp only [List.map_cons]
    rw [if_neg (h x (by simp)), ih (fun d hd => h d (by simp [hd]))]

/-- Setting the same condition twice is the same as setting it once. -/
theorem SetConditions_idem (L : List Condition) (c : Condition) :
    SetConditions (SetConditions L c) c = SetConditions L c := by
  unfold SetConditions
  by_cases h : L.any (fun d => d.ctype = c.ctype) = true
  · rw [if_pos h]
    have h2 : (L.map (fun d => if d.ctype = c.ctype then c else d)).any
        (fun d => d.ctype = c.ctype) = true := by
      rcases List.any_eq_true.mp h with ⟨d, hd, hdc⟩
      refine List.any_eq_true.mpr ⟨if d.ctype = c.ctype then c else d, List.mem_map_of_mem _ hd, ?_⟩
      simp [of_decide_eq_true hdc]
    rw [if_pos h2, List.map_map]
    have hff : ((fun d => if d.ctype = c.ctype then c else d) ∘
        (fun d => if d.ctype = c.ctype then c else d)) =
        (fun d : Condition => if d.ctype = c.ctype then c else d) := by
      funext d
      by_cases hdc : d.ctype = c.ctype <;> simp [hdc]
    rw [hff]
  · rw [if_neg h]
    have hall : ∀ d ∈ L, d.ctype ≠ c.ctype := by
      intro d hd hdc
      exact h (List.any_eq_true.mpr ⟨d, hd, decide_eq_true hdc⟩)
    have h2 : (L ++ [c]).any (fun d => d.ctype = c.ctype) = true :=
      List.any_eq_true.mpr ⟨c, by simp, by simp⟩
    rw [if_pos h2, List.map_append, map_if_no_match L c hall]
    simp

/-- The in-memory resource state after one reconciliation tick. -/
def tickState (svc : IClient) (kube : Kube) (mg : Managed) : Managed :=
  (Reconcile svc kube mg false).mg

/-- One tick on a resource that carries its external name, whose remote
object exists and whose spec matches it exactly: the tick succeeds with
only the lookup call, sets the Available condition and persists it. -/
theorem noop_tick (svc : IClient) (kube : Kube) (snap : ServiceAccountSnapshot)
    (cr' : ServiceAccount)
    (hext : cr'.externalName ≠ "")
    (hlook : svc.ServiceAccountByName cr'.externalName = .ok snap)
    (hmatch : cr'.Spec.ForProvider.Description = snap.Description)
    (hsu : ∀ c, kube.statusUpdateOk c = true) :
    Reconcile svc kube (.sa cr') false =
      ⟨.ok (),
       .sa { cr' with Status :=
         { cr'.Status with conditions := SetConditions cr'.Status.conditions Available } },
       [.lookup cr'.externalName],
       [.statusUpdate { cr' with Status :=
         { cr'.Status with conditions := SetConditions cr'.Status.conditions Available } }]⟩ := by
  simp [Reconcile, Observe, ObserveCreateResource, ObserveUpdateResource,
    ExternalNameHelper, hext, hlook, hmatch, hsu]

/-- C4 counterexample: on the concrete resource with NO external name
whose declared spec exactly matches the existing remote snapshot, the
first tick does not report the resource as existing and up to date —
the observation routes to the import step — and Ready=True is not set
by that tick, refuting the claim as universally stated. -/
theorem C4_counterexample :
    (Observe (clientFound snapMatch) kubeOK (.sa crNew)).res = .ok ⟨false, false⟩ ∧
    Available ∉ (tickState (clientFound snapMatch) kubeOK (.sa crNew)).conds := by
  refine ⟨rfl, by decide⟩

/-- C4 amended: for every resource that already carries its external
name and whose declared spec exactly matches the remote snapshot the
lookup returns, every reconciliation tick — the first and every
repetition — succeeds, performs zero create/update/delete calls,
reports the resource as existing and up to date, and the Available
(Ready=True) condition is set from the first tick onwards. -/
theorem C4_idempotent_noop (svc : IClient) (kube : Kube) (cr : ServiceAccount)
    (snap : ServiceAccountSnapshot)
    (hext : cr.externalName ≠ "")
    (hlook : svc.ServiceAccountByName cr.externalName = .ok snap)
    (hmatch : cr.Spec.ForProvider.Description = snap.Description)
    (hsu : ∀ c, kube.statusUpdateOk c = true) :
    ∀ n : Nat,
      (Reconcile svc kube ((tickState svc kube)^[n] (.sa cr)) false).res = .ok () ∧
      countMutations (Reconcile svc kube ((tickState svc kube)^[n] (.sa cr)) false).calls = 0 ∧
      (Observe svc kube ((tickState svc kube)^[n] (.sa cr))).res = .ok ⟨true, true⟩ ∧
      Available ∈ ((tickState svc kube)^[n + 1] (.sa cr)).conds := by
  have htick0 : tickState svc kube (Managed.sa cr) =
      Managed.sa { cr with Status :=
        { cr.Status with conditions := SetConditions cr.Status.conditions Available } } := by
    rw [tickState, noop_tick svc kube snap cr hext hlook hmatch hsu]
  have htickA : tickState svc kube
      (Managed.sa { cr with Status :=
        { cr.Status with conditions := SetConditions cr.Status.conditions Available } }) =
      Managed.sa { cr with Status :=
        { cr.Status with conditions := SetConditions cr.Status.conditions Available } } := by
    rw [tickState, noop_tick svc kube snap
      ({ cr with Status :=
        { cr.Status with conditions := SetConditions cr.Status.conditions Available } })
      hext hlook hmatch hsu]
    simp [SetConditions_idem]
  have hinv : ∀ n : Nat, (tickState svc kube)^[n] (Managed.sa cr) = Managed.sa cr ∨
      (tickState svc kube)^[n] (Managed.sa cr) =
        Managed.sa { cr with Status :=
          { cr.Status with conditions := SetConditions cr.Status.conditions Available } } := by
    intro n
    induction n with
    | zero => exact Or.inl rfl
    | succ k ih =>
      rw [Function.iterate_succ_apply']
      rcases ih with h | h <;> rw [h]
      · exact Or.inr htick0
      · exact Or.inr htickA
  intro n
  have hsucc : (tickState svc kube)^[n + 1] (Managed.sa cr) =
      Managed.sa { cr with Status :=
        { cr.Status with conditions := SetConditions cr.Status.conditions Available } } := by
    rw [Function.iterate_succ_apply']
    rcases hinv n with h | h <;> rw [h]
    · exact htick0
    · exact htickA
  rcases hinv n with h | h <;> rw [h]
  · refine ⟨?_, ?_, ?_, ?_⟩
    · rw [noop_tick svc kube snap cr hext hlook hmatch hsu]
    · rw [noop_tick svc kube snap cr hext hlook hmatch hsu]
      simp [countMutations, isCreateCall, isUpdateCall, isDeleteCall]
    · simp [Observe, ObserveCreateResource, ObserveUpdateResource, ExternalNameHelper,
        hext, hlook, hmatch, hsu]
    · rw [hsucc]
      exact SetConditions_mem cr.Status.conditions Available
  · refine ⟨?_, ?_, ?_, ?_⟩
    · rw [noop_tick svc kube snap
        ({ cr with Status :=
          { cr.Status with conditions := SetConditions cr.Status.conditions Available } })
        hext hlook hmatch hsu]
    · rw [noop_tick svc kube snap
        ({ cr with Status :=
          { cr.Status with conditions := SetConditions cr.Status.conditions Available } })
        hext hlook hmatch hsu]
      simp [countMutations, isCreateCall, isUpdateCall, isDeleteCall]
    · simp [Observe, ObserveCreateResource, ObserveUpdateResource, ExternalNameHelper,
        hext, hlook, hmatch, hsu]
    · rw [hsucc]
      exact SetConditions_mem cr.Status.conditions Available

/-- C4 witness: the concrete owned, converged resource after one tick:
the next tick still succeeds, performs no mutation, reports up to date,
and Ready=True remains set. -/
theorem C4_idempotent_noop_witness :
    (Reconcile (clientFound snapMatch) kubeOK
      ((tickState (clientFound snapMatch) kubeOK)^[1] (.sa crOwned)) false).res = .ok () ∧
    countMutations (Reconcile (clientFound snapMatch) kubeOK
      ((tickState (clientFound snapMatch) kubeOK)^[1] (.sa crOwned)) false).calls = 0 ∧
    (Observe (clientFound snapMatch) kubeOK
      ((tickState (clientFound snapMatch) kubeOK)^[1] (.sa crOwned))).res = .ok ⟨true, true⟩ ∧
    Available ∈ ((tickState (clientFound snapMatch) kubeOK)^[1 + 1] (.sa crOwned)).conds :=
  C4_idempotent_noop (clientFound snapMatch) kubeOK crOwned snapMatch (by decide)
    rfl rfl (fun _ => rfl) 1

/-- After filtering an identifier out of the remote accounts, no lookup
by that identifier can find it. -/
theorem find_filter_none (l : List ServiceAccountSnapshot) (i : String) :
    (l.filter (fun a => a.ID ≠ i)).find? (fun a => a.ID = i) = none := by
  apply List.find?_eq_none.mpr
  intro a ha
  have h2 := (List.mem_filter.mp ha).2
  simp at h2 ⊢
  exact h2

/-- C8: against the spec-modelled remote client, a deletion-path tick
succeeds, afterwards the remote object addressed by the stored
identifier is absent, a delete issued against that already-absent
object still returns success (not an error), and a second consecutive
deletion-path tick — now targeting the object the first tick already
removed — also succeeds. -/
theorem C8_delete_idempotent (kube : Kube) (cr : ServiceAccount) (st : RemoteState)
    (hsu : ∀ c, kube.statusUpdateOk c = true) :
    (Reconcile (clientOf st) kube (.sa cr) true).res = .ok () ∧
    ((applyCalls st (Reconcile (clientOf st) kube (.sa cr) true).calls).accounts.find?
      (fun a => a.ID = cr.Status.AtProvider.ID)) = none ∧
    ((clientOf (applyCalls st (Reconcile (clientOf st) kube (.sa cr) true).calls)).ServiceAccountDelete
      cr.Status.AtProvider.ID = .ok ()) ∧
    (Reconcile (clientOf (applyCalls st (Reconcile (clientOf st) kube (.sa cr) true).calls)) kube
      (Reconcile (clientOf st) kube (.sa cr) true).mg true).res = .ok () := by
  refine ⟨?_, ?_, rfl, ?_⟩
  · simp [Reconcile, Delete, clientOf, hsu]
  · simp [Reconcile, Delete, clientOf, hsu, applyCalls, applyCall]
  · simp [Reconcile, Delete, clientOf, hsu]

/-- C8 witness: the concrete owned resource whose remote object exists
before the first deletion tick. -/
theorem C8_delete_idempotent_witness :
    (Reconcile (clientOf ⟨[snapMatch]⟩) kubeOK (.sa crOwned) true).res = .ok () ∧
    ((applyCalls ⟨[snapMatch]⟩ (Reconcile (clientOf ⟨[snapMatch]⟩) kubeOK (.sa crOwned) true).calls).accounts.find?
      (fun a => a.ID = crOwned.Status.AtProvider.ID)) = none ∧
    ((clientOf (applyCalls ⟨[snapMatch]⟩ (Reconcile (clientOf ⟨[snapMatch]⟩) kubeOK (.sa crOwned) true).calls)).ServiceAccountDelete
      crOwned.Status.AtProvider.ID = .ok ()) ∧
    (Reconcile (clientOf (applyCalls ⟨[snapMatch]⟩ (Reconcile (clientOf ⟨[snapMatch]⟩) kubeOK (.sa crOwned) true).calls)) kubeOK
      (Reconcile (clientOf ⟨[snapMatch]⟩) kubeOK (.sa crOwned) true).mg true).res = .ok () :=
  C8_delete_idempotent kubeOK crOwned ⟨[snapMatch]⟩ (fun _ => rfl)

end Confluent
